import Mathlib

/-!
Verification of the conveyor print-dispatch engine core.

Shallow embedding of the relevant parts of the source:
  src/main/python/conveyor/address.py
  src/main/python/conveyor/recipe.py
  src/main/python/conveyor/printer/s3g.py
  src/main/python/conveyor/toolpath/miraclegrue.py
Definitions are translated from the Python source; where a definition is
instead taken from the specification document (because the code lives in a
module outside the four files above), its doc comment says so explicitly.
-/

namespace Conveyor

/-! ## Python string primitives

Helpers mirroring the Python builtins used by the source:
string `split` with `maxsplit=1`, the `int()` constructor, `str.lower`,
`str.strip`, and `os.path.splitext`. -/

/-- First occurrence split: returns the segment before the first `c` and the
remainder after it, or `none` when `c` does not occur. -/
def breakAtFirst (c : Char) : List Char → Option (List Char × List Char)
  | [] => none
  | x :: xs =>
    if x = c then some ([], xs)
    else
      match breakAtFirst c xs with
      | none => none
      | some (a, b) => some (x :: a, b)

/-- Python `s.split(c, 1)`: at most one split, at the first occurrence of `c`. -/
def pysplit1 (s : String) (c : Char) : List String :=
  match breakAtFirst c s.toList with
  | none => [s]
  | some (a, b) => [String.mk a, String.mk b]

/-- The whitespace characters recognized by Python `str.strip()` / `int()`
for ASCII input: space, tab, newline, carriage return, vertical tab, form feed. -/
def isPySpace (c : Char) : Bool :=
  c = ' ' || c = '\t' || c = '\n' || c = '\r' || c = Char.ofNat 11 || c = Char.ofNat 12

/-- Python `str.strip()` on a character list: drop leading and trailing whitespace. -/
def pyStrip (l : List Char) : List Char :=
  ((l.dropWhile isPySpace).reverse.dropWhile isPySpace).reverse

/-- Decimal value of a digit string (most significant first). -/
def digitsToNat (l : List Char) : Nat :=
  l.foldl (fun acc c => acc * 10 + (c.toNat - 48)) 0

/-- Python 2 `int(s)` for ASCII strings: strips surrounding whitespace, accepts
an optional single `+`/`-` sign followed by a nonempty run of decimal digits;
anything else raises `ValueError` (here: `none`). -/
def pyint (s : String) : Option Int :=
  match pyStrip s.toList with
  | [] => none
  | c :: rest =>
    let signed : Bool × List Char :=
      if c = '-' then (true, rest)
      else if c = '+' then (false, rest)
      else (false, c :: rest)
    let ds := signed.2
    if ds ≠ [] ∧ ds.all (fun d => d.isDigit) then
      some (if signed.1 then -(digitsToNat ds : Int) else (digitsToNat ds : Int))
    else none

/-! ## address.py -/

/-- The address values produced by `Address.parse`:
`PipeAddress(path)` or `TcpAddress(host, port)`. -/
inductive Addr
  | pipe (path : String)
  | tcp (host : String) (port : Int)
deriving DecidableEq

/-- The exceptions raised by address parsing (address.py, bottom of file).
`invalidPort` carries the whole input and the bad port string, as
`InvalidPortException(s, hostport[1])` does. -/
inductive AddrErr
  | unknownProtocol (value : String) (protocol : String)
  | missingPath (value : String)
  | missingHost (value : String)
  | missingPort (value : String)
  | invalidPort (value : String) (port : String)
deriving DecidableEq

/-- `_AbstractPipeAddress._parse` (address.py lines 92-104): requires the split
to have two parts and a nonempty path, else `MissingPathException`. -/
def pipeAddressParse (s : String) (split : List String) : Except AddrErr Addr :=
  if split.length ≠ 2 then .error (.missingPath s)
  else
    let path := split.getD 1 ""
    if path.length = 0 then .error (.missingPath s)
    else .ok (.pipe path)

/-- `TcpAddress._parse` (address.py lines 156-177): requires two parts, then
splits the remainder once more on a colon; empty host raises
`MissingHostException`, a port string rejected by `int()` raises
`InvalidPortException(s, portText)`. -/
def tcpAddressParse (s : String) (split : List String) : Except AddrErr Addr :=
  if split.length ≠ 2 then .error (.missingHost s)
  else
    let hostport := pysplit1 (split.getD 1 "") ':'
    if hostport.length ≠ 2 then .error (.missingPort s)
    else
      let host := hostport.getD 0 ""
      if host.length = 0 then .error (.missingHost s)
      else
        match pyint (hostport.getD 1 "") with
        | none => .error (.invalidPort s (hostport.getD 1 ""))
        | some port => .ok (.tcp host port)

/-- `Address.parse` (address.py lines 74-83): split once on a colon and
dispatch on the protocol tag. -/
def addressParse (s : String) : Except AddrErr Addr :=
  let split := pysplit1 s ':'
  if split.getD 0 "" = "pipe" then pipeAddressParse s split
  else if split.getD 0 "" = "tcp" then tcpAddressParse s split
  else .error (.unknownProtocol s (split.getD 0 ""))

/-! ## printer/s3g.py — detector loop (S3gDetectorThread) -/

/-- The blacklist purge at the top of `S3gDetectorThread._runiteration`
(s3g.py lines 50-53): the loop deletes an entry exactly when
`unlisttime >= now`, so an entry is retained exactly when its
`unlisttime < now`.  The blacklist is an association of port name to
unlist time; times are epoch seconds as integers. -/
def purgeBlacklist (now : Int) (blacklist : List (String × Int)) : List (String × Int) :=
  blacklist.filter (fun entry => decide (entry.2 < now))

/-- Detector state carried between iterations: the key set of
`self._available` from the previous iteration, and `self._blacklist`. -/
structure DetectorState where
  available : List String
  blacklist : List (String × Int)

/-- The sets computed by one detector iteration, observed at the moment the
attach decision is taken (s3g.py lines 57-63). -/
structure IterationView where
  blacklistAtDiff : List (String × Int)
  oldKeys : List String
  newKeys : List String
  detached : List String
  attached : List String
  nextAvailable : List String

/-- Python set difference `a - b` over key lists. -/
def setDiff (a b : List String) : List String :=
  a.filter (fun x => decide (x ∉ b))

/-- `S3gDetectorThread._runiteration` (s3g.py lines 46-73), restricted to the
state it computes: purge the blacklist, diff the available-port key set
against the previous one (excluding blacklisted ports from the new set), and
replace `self._available` with the full `available` map (not with
`new_keys`). -/
def runiteration (st : DetectorState) (now : Int) (availableNow : List String) :
    IterationView :=
  let bl := purgeBlacklist now st.blacklist
  let blKeys := bl.map Prod.fst
  let oldKeys := st.available
  let newKeys := availableNow.filter (fun k => decide (k ∉ blKeys))
  { blacklistAtDiff := bl
    oldKeys := oldKeys
    newKeys := newKeys
    detached := setDiff oldKeys newKeys
    attached := setDiff newKeys oldKeys
    nextAvailable := availableNow }

/-- `S3gDetectorThread.blacklist` (s3g.py lines 75-78). -/
def blacklistPort (now : Int) (blacklisttime : Int) (portname : String)
    (blacklist : List (String × Int)) : List (String × Int) :=
  (portname, now + blacklisttime) :: blacklist.filter (fun e => decide (e.1 ≠ portname))

/-! ## printer/s3g.py — stream print counting (S3gDriver) -/

/-- Python `len` of a 2-tuple, as produced by `enumerate`: always 2,
regardless of the line it pairs with. -/
def pyLenPair (_data : Nat × String) : Nat :=
  2

/-- `S3gDriver._countgcodelines` (s3g.py lines 223-229).  The loop iterates
`for data in enumerate(gcodelines)`, so each `data` is the `(index, line)`
pair itself and `len(data)` is the length of that tuple. -/
def countgcodelines (gcodelines : List String) : Nat × Nat :=
  gcodelines.enum.foldl
    (fun acc data => (acc.1 + 1, acc.2 + pyLenPair data)) (0, 0)

/-- One body iteration of the stream loop in `S3gDriver._genericprint`
(s3g.py lines 249-265), restricted to the data it threads: increment
`currentbyte` by the raw line length, then strip the line for dispatch to the
toolpath parser. -/
def printLineStep (currentbyte : Nat) (data : String) : Nat × String :=
  let currentbyte := currentbyte + data.length
  let data := String.mk (pyStrip data.toList)
  (currentbyte, data)

/-- `currentbyte` after the stream loop of `_genericprint` runs over every
line (the task stays RUNNING throughout). -/
def genericprintFinalCurrentbyte (gcodelines : List String) : Nat :=
  gcodelines.foldl (fun currentbyte data => (printLineStep currentbyte data).1) 0

/-! ## recipe.py — RecipeManager dispatch -/

/-- Python `str.lower()` for ASCII strings. -/
def pyLower (s : String) : String :=
  String.mk (s.toList.map Char.toLower)

/-- The extension part of Python `os.path.splitext(p)` with separator `/`:
the suffix starting at the last dot of the basename, unless every character
of the basename before that dot is itself a dot (then there is no
extension). -/
def splitextExt (p : String) : String :=
  let r := p.toList.reverse
  let bnameRev := r.takeWhile (fun c => decide (c ≠ '/'))
  match breakAtFirst '.' bnameRev with
  | none => ""
  | some (extRev, restRev) =>
    if restRev.any (fun c => decide (c ≠ '.')) then
      String.mk ('.' :: extRev.reverse)
    else ""

/-- The planner kinds selected by `RecipeManager.getrecipe`: the toolpath
planner (`_GcodeRecipe`), the mesh planner (`_StlRecipe`), and the composite
planner (the `_ThingRecipe` family). -/
inductive Planner
  | toolpath
  | mesh
  | composite
deriving DecidableEq

/-- The exceptions the dispatch can raise.  `nameErrorUndefined` models the
Python `NameError` produced by `raise MissingPathExceptoin(job.path)`
(recipe.py line 72): no class of that name is defined anywhere in the module,
so evaluating the name itself raises `NameError` instead of constructing an
exception object. -/
inductive RecipeErr
  | unsupportedModelType (path : String)
  | missingFile (path : String)
  | notFile (path : String)
  | nameErrorUndefined (name : String)
  | invalidThing (path : String)
deriving DecidableEq

/-- `RecipeManager.getrecipe` together with `_getrecipe_gcode`,
`_getrecipe_stl` and the existence check of `_getrecipe_thing`
(recipe.py lines 49-81), parameterized by `os.path.exists` and
`os.path.isfile`.  The mesh extraction performed by the rest of
`_getrecipe_thing` runs only after its existence check and does not affect
which planner family is selected, so it is abstracted here. -/
def getrecipe (pathExists isFile : String → Bool) (path : String) :
    Except RecipeErr Planner :=
  let ext := pyLower (splitextExt path)
  if ext = ".gcode" then
    if pathExists path = false then .error (.missingFile path)
    else if isFile path = false then .error (.notFile path)
    else .ok .toolpath
  else if ext = ".stl" then
    if pathExists path = false then .error (.nameErrorUndefined "MissingPathExceptoin")
    else if isFile path = false then .error (.notFile path)
    else .ok .mesh
  else if ext = ".thing" then
    if pathExists path = false then .error (.missingFile path)
    else .ok .composite
  else .error (.unsupportedModelType path)

/-! ## recipe.py — g-code processor selection -/

/-- The slicer identifiers compared by `Recipe.getgcodeprocessors`
(`conveyor.domain.Slicer`). -/
inductive Slicer
  | miraclegrue
  | skeinforge
deriving DecidableEq

/-- recipe.py lines 129-130: prepend `AnchorProcessor` when it is absent and
no slicer settings path is configured. -/
def anchorStep (slicerSettingsPath : Option String) (g : List String) : List String :=
  if "AnchorProcessor" ∉ g ∧ slicerSettingsPath = none then "AnchorProcessor" :: g
  else g

/-- recipe.py lines 131-132: append `Skeinforge50Processor` when absent. -/
def skeinforge50Step (g : List String) : List String :=
  if "Skeinforge50Processor" ∉ g then g ++ ["Skeinforge50Processor"] else g

/-- recipe.py lines 133-135: when the configured profile is `"Replicator2"`,
append `FanProcessor` if absent. -/
def fanStep (configProfile : String) (g : List String) : List String :=
  if configProfile = "Replicator2" then
    if "FanProcessor" ∉ g then g ++ ["FanProcessor"] else g
  else g

/-- `Recipe.getgcodeprocessors` (recipe.py lines 124-136): start from
`job.gcodeprocessor` (empty when absent); when the Skeinforge slicer is
selected, run the anchor, Skeinforge-compatibility and fan steps in the
source's order — all three, including the fan step, sit inside the
Skeinforge branch. -/
def getgcodeprocessors (jobGcodeprocessor : Option (List String)) (slicer : Slicer)
    (slicerSettingsPath : Option String) (configProfile : String) : List String :=
  let g0 := match jobGcodeprocessor with
    | none => []
    | some l => l
  if slicer = Slicer.skeinforge then
    fanStep configProfile (skeinforge50Step (anchorStep slicerSettingsPath g0))
  else g0

/-! ## Task events, process cleanup, and temp-file deletion -/

/-- The five multicast events of a Task, named as the source attributes
(`runningevent`, `heartbeatevent`, `endevent`, `failevent`,
`stoppedevent`). -/
inductive TaskEvent
  | runningevent
  | heartbeatevent
  | endevent
  | failevent
  | stoppedevent
deriving DecidableEq

/-- The three terminal transitions of a Task or Process. -/
inductive TerminalKind
  | endTransition
  | failTransition
  | cancelTransition
deriving DecidableEq

/-- Modelled from the spec: conveyor/task.py and conveyor/process.py are not
among the given source files; the transition table of §4.2 fixes which
events fire on each terminal transition — `end(result)` fires `end` then
`stopped`, `fail(cause)` fires `fail` then `stopped`, and `cancel` fires
`stopped` only. -/
def eventsFired : TerminalKind → List TaskEvent
  | .endTransition => [.endevent, .stoppedevent]
  | .failTransition => [.failevent, .stoppedevent]
  | .cancelTransition => [.stoppedevent]

/-- The cleanup wiring of a Process returned by a recipe method: the events
the cleanup handler is attached to, and the paths it unlinks in order. -/
structure ProcessPlan where
  cleanupAttached : List TaskEvent
  cleanupPaths : List String

/-- `_StlRecipe.print` cleanup (recipe.py lines 373-378): the
`process_endcallback` closure is attached to `process.endevent` only; it
unlinks `gcodepath` and, when distinct, `processed_gcodepath`. -/
def stlPrintPlan (gcodepath processedGcodepath : String) : ProcessPlan :=
  { cleanupAttached := [TaskEvent.endevent]
    cleanupPaths :=
      gcodepath ::
        (if gcodepath ≠ processedGcodepath then [processedGcodepath] else []) }

/-- `_DualThingRecipe.printtofile` cleanup (recipe.py lines 550-553):
attached to `process.endevent` only; unlinks the two sliced toolpaths and
the processed toolpath. -/
def dualPrinttofilePlan (gcode0Path gcode1Path processedGcodepath : String) :
    ProcessPlan :=
  { cleanupAttached := [TaskEvent.endevent]
    cleanupPaths := [gcode0Path, gcode1Path, processedGcodepath] }

/-- Whether the plan's cleanup handler runs when the process takes the given
terminal transition: some event it is attached to must fire there. -/
def cleanupRunsOn (plan : ProcessPlan) (t : TerminalKind) : Bool :=
  (eventsFired t).any (fun e => plan.cleanupAttached.contains e)

/-- Python `os.unlink` over a file-system modelled as the list of existing
paths: removes the path, or raises `OSError` (the error case) when the path
does not exist. -/
def osUnlink (fs : List String) (path : String) : Except String (List String) :=
  if path ∈ fs then .ok (fs.erase path) else .error path

/-- Running a cleanup handler: unlink each path in order, propagating the
first `OSError`. -/
def runCleanup (fs : List String) (paths : List String) :
    Except String (List String) :=
  paths.foldlM osUnlink fs

/-! ## recipe.py — verify task (C5) -/

/-- The progress record built by `Recipe.verifys3gtask`
(recipe.py lines 227-230). -/
structure ProgressRec where
  name : String
  progress : Nat
deriving DecidableEq

/-- Modelled from the spec: `Task.lazy_heartbeat(new, old)` lives in
conveyor/task.py, which is not among the given source files; §4.2 specifies
that it fires `heartbeat(new)` iff the two records differ in any value.
Returns the heartbeat payloads fired. -/
def lazyHeartbeat (newRec oldRec : ProgressRec) : List ProgressRec :=
  if newRec ≠ oldRec then [newRec] else []

/-- The `update` closure of `Recipe.verifys3gtask` (recipe.py lines
232-235).  `oldprogressreport = progressreport` binds the very dict object
that `progressreport['progress'] = percent` then mutates in place, so when
`lazy_heartbeat(progressreport, oldprogressreport)` compares the two, both
arguments are the same mutated record. -/
def verifyUpdate (progressreport : ProgressRec) (percent : Nat) :
    ProgressRec × List ProgressRec :=
  let mutated := { progressreport with progress := percent }
  (mutated, lazyHeartbeat mutated mutated)

/-- The heartbeat payloads fired over a sequence of progress callbacks,
starting from the initial record `{name: "verify", progress: 0}`. -/
def verifyHeartbeats (percents : List Nat) : List ProgressRec :=
  (percents.foldl
    (fun acc percent =>
      let s := verifyUpdate acc.1 percent
      (s.1, acc.2 ++ s.2))
    ({ name := "verify", progress := 0 }, ([] : List ProgressRec))).2

/-- Terminal result of the verify task. -/
inductive VerifyResult
  | ended (value : Bool)
  | failed (message : String)
deriving DecidableEq

/-- Behavior of `FileReader.ReadFile(update)`: it invokes the progress
callback once per reported percentage and then either returns the payloads
or raises `S3gStreamError(message)`. -/
inductive ReadOutcome
  | success (percents : List Nat)
  | streamError (percents : List Nat) (message : String)

/-- The observable run of the verify task: heartbeats fired, then the
terminal transition. -/
structure VerifyRun where
  heartbeats : List ProgressRec
  result : VerifyResult
deriving DecidableEq

/-- `Recipe.verifys3gtask` running callback (recipe.py lines 238-247):
parse the artifact with the driver's file reader, forwarding progress
through `update`; success ends the task with `True`, an `S3gStreamError`
fails it with the exception's message. -/
def verifys3gtask : ReadOutcome → VerifyRun
  | .success percents =>
    { heartbeats := verifyHeartbeats percents, result := .ended true }
  | .streamError percents message =>
    { heartbeats := verifyHeartbeats percents, result := .failed message }

/-! ## Task-boundary exception handling (C6) -/

/-- Terminal outcome of a task body. -/
inductive TaskOutcome
  | ended
  | failed (cause : String)
deriving DecidableEq

/-- What a task body does: the terminal transition it drives the task to,
and the exception (if any) that escapes the body to the code that invoked
it. -/
structure BodyRun where
  outcome : TaskOutcome
  propagated : Option String
deriving DecidableEq

/-- `Recipe._gcodeprocessortask` running callback (recipe.py lines 155-169),
parameterized by the outcome of the read-process-write work: `except
Exception as e` converts the exception to `task.fail(e)` and swallows it;
the `else` branch calls `task.end(None)`. -/
def gcodeprocessortaskBody (work : Except String Unit) : BodyRun :=
  match work with
  | .error e => { outcome := .failed e, propagated := none }
  | .ok _ => { outcome := .ended, propagated := none }

/-- `MiracleGrueToolpath.slice` (miraclegrue.py lines 42-86), parameterized
by the outcome of the slicing work (the try block, including the `raise
Exception(code)` for a nonzero exit code): the except clause calls
`task.fail(e)` and then `raise`s the same exception again, so it escapes to
the invoker; the `else` branch calls `task.end(None)`. -/
def miraclegrueSliceBody (work : Except String Unit) : BodyRun :=
  match work with
  | .error e => { outcome := .failed e, propagated := some e }
  | .ok _ => { outcome := .ended, propagated := none }

end Conveyor

namespace Conveyor

/-! ## Lemmas about the split primitive -/

theorem breakAtFirst_cons_eq (c : Char) (xs : List Char) :
    breakAtFirst c (c :: xs) = some ([], xs) := by
  simp [breakAtFirst]

theorem breakAtFirst_cons_ne (c x : Char) (xs : List Char) (h : x ≠ c) :
    breakAtFirst c (x :: xs) =
      match breakAtFirst c xs with
      | none => none
      | some (a, b) => some (x :: a, b) := by
  simp [breakAtFirst, h]

theorem breakAtFirst_of_not_mem (c : Char) (l1 l2 : List Char) (h : c ∉ l1) :
    breakAtFirst c (l1 ++ c :: l2) = some (l1, l2) := by
  induction l1 with
  | nil => simp [breakAtFirst]
  | cons x xs ih =>
    have hx : x ≠ c := by
      intro he
      exact h (by simp [he])
    have hxs : c ∉ xs := by
      intro hm
      exact h (by simp [hm])
    rw [List.cons_append, breakAtFirst_cons_ne c x _ hx, ih hxs]

theorem toList_append (s t : String) : (s ++ t).toList = s.toList ++ t.toList :=
  String.data_append s t

/-- Splitting `proto ++ ":" ++ rest` once on a colon yields the protocol and
the remainder, when the protocol itself holds no colon. -/
theorem pysplit1_append (proto rest : String) (h : (':') ∉ proto.toList) :
    pysplit1 (proto ++ ":" ++ rest) ':' = [proto, rest] := by
  have hdata : (proto ++ ":" ++ rest).toList = proto.toList ++ ':' :: rest.toList := by
    rw [toList_append, toList_append, List.append_assoc]
    rfl
  unfold pysplit1
  rw [hdata, breakAtFirst_of_not_mem ':' _ _ h]
  obtain ⟨pl⟩ := proto
  obtain ⟨rl⟩ := rest
  rfl

/-- A string is empty exactly when its character list is. -/
theorem length_eq_zero_iff (s : String) : s.length = 0 ↔ s = "" := by
  obtain ⟨l⟩ := s
  cases l <;> simp [String.length, String.ext_iff]

theorem append_eq_mk (a b : List Char) :
    String.mk a ++ String.mk b = String.mk (a ++ b) :=
  rfl

/-- `Address.parse` on `"pipe:" ++ p` with nonempty `p` yields the pipe
address with path `p`. -/
theorem addressParse_pipe_nonempty (p : String) (hp : p ≠ "") :
    addressParse ("pipe:" ++ p) = .ok (.pipe p) := by
  have hs : ("pipe:" ++ p) = "pipe" ++ ":" ++ p := by
    simp [String.ext_iff, String.data_append]
  have hsplit : pysplit1 ("pipe:" ++ p) ':' = ["pipe", p] := by
    rw [hs]
    exact pysplit1_append "pipe" p (by decide)
  have hlen : ¬ p.length = 0 := by
    rw [length_eq_zero_iff]
    exact hp
  simp [addressParse, hsplit, pipeAddressParse, hlen]

/-- C9: `Address.parse` satisfies the case analysis: `"tcp:localhost:9999"`
returns `TcpAddress("localhost", 9999)`; `"tcp::9999"` raises
`MissingHostException`; `"tcp:h:x"` raises `InvalidPortException` carrying the
bad port string `"x"`; `"pipe:"` raises `MissingPathException`; `"ftp:/x"`
raises `UnknownProtocolException`; and `"pipe:" ++ p` with nonempty `p`
returns a pipe address with path `p`. -/
theorem address_parse_case_analysis :
    addressParse "tcp:localhost:9999" = .ok (.tcp "localhost" 9999) ∧
    addressParse "tcp::9999" = .error (.missingHost "tcp::9999") ∧
    addressParse "tcp:h:x" = .error (.invalidPort "tcp:h:x" "x") ∧
    addressParse "pipe:" = .error (.missingPath "pipe:") ∧
    addressParse "ftp:/x" = .error (.unknownProtocol "ftp:/x" "ftp") ∧
    ∀ p : String, p ≠ "" → addressParse ("pipe:" ++ p) = .ok (.pipe p) :=
  ⟨rfl, rfl, rfl, rfl, rfl, addressParse_pipe_nonempty⟩

/-- Witness for C9: the universal pipe clause applied at a concrete path. -/
theorem address_parse_case_analysis_witness :
    addressParse "pipe:conveyord.socket" = .ok (.pipe "conveyord.socket") :=
  address_parse_case_analysis.2.2.2.2.2 "conveyord.socket" (by decide)

/-- C10: parsing `"tcp:" ++ host ++ ":" ++ portText` with nonempty,
colon-free host succeeds exactly when Python `int()` accepts `portText`,
yielding a `TcpAddress` with that integer port and performing no range
check; otherwise it raises `InvalidPortException` carrying `portText`. -/
theorem tcp_parse_port_python_int (host portText : String)
    (h1 : host ≠ "") (h2 : (':') ∉ host.toList) :
    addressParse ("tcp:" ++ host ++ ":" ++ portText) =
      (match pyint portText with
       | some v => Except.ok (Addr.tcp host v)
       | none =>
          Except.error
            (AddrErr.invalidPort ("tcp:" ++ host ++ ":" ++ portText) portText)) := by
  have hs : ("tcp:" ++ host ++ ":" ++ portText)
      = "tcp" ++ ":" ++ (host ++ ":" ++ portText) := by
    simp [String.ext_iff, String.data_append]
  have hsplit : pysplit1 ("tcp:" ++ host ++ ":" ++ portText) ':'
      = ["tcp", host ++ ":" ++ portText] := by
    rw [hs]
    exact pysplit1_append "tcp" _ (by decide)
  have hhostport : pysplit1 (host ++ ":" ++ portText) ':' = [host, portText] :=
    pysplit1_append host portText h2
  have hlen : ¬ host.length = 0 := by
    rw [length_eq_zero_iff]
    exact h1
  cases hpi : pyint portText with
  | none => simp [addressParse, hsplit, tcpAddressParse, hhostport, hlen, hpi]
  | some v => simp [addressParse, hsplit, tcpAddressParse, hhostport, hlen, hpi]

/-- Witness for C10: the negative port text `"-1"` and the whitespace-padded
port text `" 80 "` are both accepted, with no range check. -/
theorem tcp_parse_port_python_int_witness :
    addressParse "tcp:h:-1" = .ok (.tcp "h" (-1)) ∧
    addressParse "tcp:h: 80 " = .ok (.tcp "h" 80) := by
  have hn := tcp_parse_port_python_int "h" "-1" (by decide) (by decide)
  have hw := tcp_parse_port_python_int "h" " 80 " (by decide) (by decide)
  constructor
  · rw [show ("tcp:h:-1" : String) = "tcp:" ++ "h" ++ ":" ++ "-1" from rfl, hn]
    rfl
  · rw [show ("tcp:h: 80 " : String) = "tcp:" ++ "h" ++ ":" ++ " 80 " from rfl, hw]
    rfl

/-! ## Detector: blacklist purge and attach decision -/

/-- C1: the purge loop's comparison is inverted relative to the claim.  At
`now = 10`, the expired entry `("p0", 0)` (whose unlist time is in the past)
is retained, and the future entry `("p1", 20)` is removed: the code deletes
an entry when `unlisttime >= now` and keeps it when `unlisttime < now`,
the exact opposite of purging entries whose unlist time has passed. -/
theorem blacklist_purge_inverted_eval :
    purgeBlacklist 10 [("p0", 0), ("p1", 20)] = [("p0", 0)] := by
  decide

/-- C7 counterexample: a state in which, at the moment of the attach
decision, the known-port set and the blacklisted-port set intersect.  Port
`"p"` was available in the previous iteration (so it is known) and carries a
blacklist entry that survives the purge; both sets contain `"p"`. -/
theorem known_blacklist_not_disjoint :
    ¬ List.Disjoint
        (runiteration ⟨["p"], [("p", 0)]⟩ 10 ["p"]).oldKeys
        ((runiteration ⟨["p"], [("p", 0)]⟩ 10 ["p"]).blacklistAtDiff.map Prod.fst) := by
  intro h
  exact h (a := "p") (by decide) (by decide)

/-- C7 amended: at the attach decision the candidate set
`new_keys = available − blacklisted` — and therefore the attached set — is
disjoint from the blacklisted ports; the retained known set (the previous
`self._available`) need not be. -/
theorem attach_candidates_disjoint_blacklist (st : DetectorState) (now : Int)
    (availableNow : List String) :
    List.Disjoint (runiteration st now availableNow).newKeys
        ((runiteration st now availableNow).blacklistAtDiff.map Prod.fst) ∧
    List.Disjoint (runiteration st now availableNow).attached
        ((runiteration st now availableNow).blacklistAtDiff.map Prod.fst) := by
  constructor
  · intro a ha hb
    rw [runiteration] at ha
    simp only [List.mem_filter, decide_eq_true_eq] at ha
    exact ha.2 hb
  · intro a ha hb
    rw [runiteration] at ha hb
    simp only [setDiff, List.mem_filter, decide_eq_true_eq] at ha
    exact ha.1.2 hb

/-! ## Stream print byte counting -/

/-- `_countgcodelines` counts every line, but sums `len` of the
`(index, line)` tuples yielded by `enumerate`, so the byte total is twice the
line count whatever the lines hold. -/
theorem countgcodelines_foldl (en : List (Nat × String)) (a b : Nat) :
    en.foldl (fun acc data => (acc.1 + 1, acc.2 + pyLenPair data)) (a, b)
      = (a + en.length, b + 2 * en.length) := by
  induction en generalizing a b with
  | nil => simp
  | cons x xs ih =>
    rw [List.foldl_cons, ih]
    simp [pyLenPair, Prod.ext_iff]
    omega

theorem countgcodelines_eq (gcodelines : List String) :
    countgcodelines gcodelines = (gcodelines.length, 2 * gcodelines.length) := by
  rw [countgcodelines, countgcodelines_foldl]
  simp

/-- C2: evaluation at the failing input `["abc\n"]` (one line of four
characters).  `_countgcodelines` returns `totallines = 1` (correct) but
`totalbytes = 2`, because its loop takes `len` of the `(index, line)` pair
from `enumerate` instead of the line; the stream loop's `currentbyte`, which
does add the raw line lengths, finishes at 4 ≠ 2. -/
theorem countgcodelines_totalbytes_eval :
    countgcodelines ["abc\n"] = (1, 2) ∧
    genericprintFinalCurrentbyte ["abc\n"] = 4 ∧
    (countgcodelines ["abc\n"]).2 ≠ genericprintFinalCurrentbyte ["abc\n"] := by
  decide

/-! ## Recipe dispatch -/

/-- C4: the recipe dispatch evaluated across the case analysis.  The
lowercased extension selects the planner (`.gcode` → toolpath, `.stl` →
mesh, `.thing` → composite, else `UnsupportedModelTypeException`), and an
existing non-regular-file path fails with `NotFileException` for the
toolpath and mesh planners; but a nonexistent `.stl` path raises the
`NameError` for the undefined class name `MissingPathExceptoin` rather than
`MissingFileException`, diverging from the claim. -/
theorem getrecipe_dispatch_eval :
    getrecipe (fun _ => false) (fun _ => false) "model.stl"
      = .error (.nameErrorUndefined "MissingPathExceptoin") ∧
    getrecipe (fun _ => true) (fun _ => true) "part.GCode" = .ok .toolpath ∧
    getrecipe (fun _ => true) (fun _ => true) "part.stl" = .ok .mesh ∧
    getrecipe (fun _ => true) (fun _ => true) "part.thing" = .ok .composite ∧
    getrecipe (fun _ => true) (fun _ => true) "part.txt"
      = .error (.unsupportedModelType "part.txt") ∧
    getrecipe (fun _ => false) (fun _ => false) "part.gcode"
      = .error (.missingFile "part.gcode") ∧
    getrecipe (fun _ => true) (fun _ => false) "part.gcode"
      = .error (.notFile "part.gcode") ∧
    getrecipe (fun _ => true) (fun _ => false) "part.stl"
      = .error (.notFile "part.stl") :=
  ⟨rfl, rfl, rfl, rfl, rfl, rfl, rfl, rfl⟩

/-! ## G-code processor selection -/

theorem sublist_anchorStep (p : Option String) (g : List String) :
    g.Sublist (anchorStep p g) := by
  unfold anchorStep
  split
  · exact List.sublist_cons_self _ _
  · exact List.Sublist.refl _

theorem sublist_skeinforge50Step (g : List String) :
    g.Sublist (skeinforge50Step g) := by
  unfold skeinforge50Step
  split
  · exact List.sublist_append_left _ _
  · exact List.Sublist.refl _

theorem sublist_fanStep (pr : String) (g : List String) :
    g.Sublist (fanStep pr g) := by
  unfold fanStep
  split
  · split
    · exact List.sublist_append_left _ _
    · exact List.Sublist.refl _
  · exact List.Sublist.refl _

theorem mem_anchorStep_self (p : Option String) (g : List String) :
    "AnchorProcessor" ∈ anchorStep p g ↔ p = none ∨ "AnchorProcessor" ∈ g := by
  unfold anchorStep
  split
  case isTrue h => simp [h.2]
  case isFalse h =>
    constructor
    · exact Or.inr
    · intro hc
      rcases hc with hp | hm
      · by_contra hnm
        exact h ⟨hnm, hp⟩
      · exact hm

theorem mem_anchorStep_ne (x : String) (hx : x ≠ "AnchorProcessor")
    (p : Option String) (g : List String) :
    x ∈ anchorStep p g ↔ x ∈ g := by
  unfold anchorStep
  split
  · simp [hx]
  · exact Iff.rfl

theorem mem_skeinforge50Step_self (g : List String) :
    "Skeinforge50Processor" ∈ skeinforge50Step g := by
  unfold skeinforge50Step
  split
  case isTrue h => simp
  case isFalse h => exact not_not.mp h

theorem mem_skeinforge50Step_ne (x : String) (hx : x ≠ "Skeinforge50Processor")
    (g : List String) :
    x ∈ skeinforge50Step g ↔ x ∈ g := by
  unfold skeinforge50Step
  split
  · simp [hx]
  · exact Iff.rfl

theorem mem_fanStep_self (g : List String) :
    "FanProcessor" ∈ fanStep "Replicator2" g := by
  unfold fanStep
  simp only [if_pos rfl]
  by_cases hm : "FanProcessor" ∈ g
  · rw [if_neg (not_not_intro hm)]
    exact hm
  · rw [if_pos hm]
    simp

theorem fanStep_not_rep2 (pr : String) (g : List String) (h : pr ≠ "Replicator2") :
    fanStep pr g = g := by
  unfold fanStep
  simp [h]

theorem mem_fanStep_ne (x : String) (hx : x ≠ "FanProcessor")
    (pr : String) (g : List String) :
    x ∈ fanStep pr g ↔ x ∈ g := by
  unfold fanStep
  split
  · split
    · simp [hx]
    · exact Iff.rfl
  · exact Iff.rfl

theorem nodup_anchorStep (p : Option String) (g : List String) (h : g.Nodup) :
    (anchorStep p g).Nodup := by
  unfold anchorStep
  split
  case isTrue hc => exact List.nodup_cons.mpr ⟨hc.1, h⟩
  case isFalse hc => exact h

theorem nodup_append_singleton (g : List String) (x : String) (h : g.Nodup)
    (hx : x ∉ g) : (g ++ [x]).Nodup := by
  rw [List.nodup_append]
  refine ⟨h, List.nodup_singleton x, ?_⟩
  intro a ha hmem
  rw [List.mem_singleton] at hmem
  exact hx (hmem ▸ ha)

theorem nodup_skeinforge50Step (g : List String) (h : g.Nodup) :
    (skeinforge50Step g).Nodup := by
  unfold skeinforge50Step
  split
  case isTrue hc => exact nodup_append_singleton _ _ h hc
  case isFalse hc => exact h

theorem nodup_fanStep (pr : String) (g : List String) (h : g.Nodup) :
    (fanStep pr g).Nodup := by
  unfold fanStep
  split
  · split
    case isTrue hc => exact nodup_append_singleton _ _ h hc
    case isFalse hc => exact h
  · exact h

theorem anchorStep_eq (p : Option String) (g : List String) :
    anchorStep p g
      = (if "AnchorProcessor" ∉ g ∧ p = none then ["AnchorProcessor"] else []) ++ g := by
  unfold anchorStep
  split <;> simp

theorem skeinforge50Step_eq (g : List String) :
    skeinforge50Step g
      = g ++ (if "Skeinforge50Processor" ∉ g then ["Skeinforge50Processor"] else []) := by
  unfold skeinforge50Step
  split <;> simp

theorem fanStep_eq (pr : String) (g : List String) :
    fanStep pr g
      = g ++ (if pr = "Replicator2" ∧ "FanProcessor" ∉ g then ["FanProcessor"] else []) := by
  unfold fanStep
  split
  case isTrue hpr =>
    split
    case isTrue hf => simp [hpr, hf]
    case isFalse hf => simp [hpr, hf]
  case isFalse hpr => simp [hpr]

/-- C8 counterexample: with the Miracle-Grue slicer selected and the
configured profile `"Replicator2"`, no fan processor is appended — the fan
append sits inside the Skeinforge branch, so a matching profile alone does
not add it, contrary to the claim. -/
theorem fanprocessor_not_added :
    "FanProcessor" ∉ getgcodeprocessors none Slicer.miraclegrue none "Replicator2" := by
  decide

/-- C8 amended: the result is exactly the optional `AnchorProcessor`
*prepended at the head* (when the Skeinforge slicer is selected, it is not
already present, and no slicer path is configured), followed by the
original `job.gcodeprocessor` list unchanged and in order (empty when
absent), followed by `Skeinforge50Processor` *appended* (when Skeinforge is
selected and it is not already present), followed by `FanProcessor`
*appended* (only when Skeinforge is selected *and* the profile is
`"Replicator2"`, and it is not already present); for a non-Skeinforge
slicer all three conditions are false and the list comes back unchanged.
No duplicates are introduced: a duplicate-free input yields a
duplicate-free result. -/
theorem getgcodeprocessors_characterization (jp : Option (List String)) (sl : Slicer)
    (path : Option String) (profile : String) :
    getgcodeprocessors jp sl path profile
      = (if sl = Slicer.skeinforge ∧ "AnchorProcessor" ∉ jp.getD [] ∧ path = none
          then ["AnchorProcessor"] else [])
        ++ jp.getD []
        ++ (if sl = Slicer.skeinforge ∧ "Skeinforge50Processor" ∉ jp.getD []
            then ["Skeinforge50Processor"] else [])
        ++ (if sl = Slicer.skeinforge ∧ profile = "Replicator2" ∧
              "FanProcessor" ∉ jp.getD []
            then ["FanProcessor"] else []) ∧
    ((jp.getD []).Nodup → (getgcodeprocessors jp sl path profile).Nodup) := by
  have hg : (match jp with | none => ([] : List String) | some l => l) = jp.getD [] := by
    cases jp <;> rfl
  cases sl with
  | miraclegrue =>
    have hr : getgcodeprocessors jp Slicer.miraclegrue path profile = jp.getD [] := by
      simp [getgcodeprocessors, hg]
    rw [hr]
    constructor
    · simp
    · exact fun h => h
  | skeinforge =>
    have hr : getgcodeprocessors jp Slicer.skeinforge path profile
        = fanStep profile (skeinforge50Step (anchorStep path (jp.getD []))) := by
      simp [getgcodeprocessors, hg]
    rw [hr]
    constructor
    · have hs := mem_anchorStep_ne "Skeinforge50Processor" (by decide) path (jp.getD [])
      have hf1 := mem_anchorStep_ne "FanProcessor" (by decide) path (jp.getD [])
      have hf2 := mem_skeinforge50Step_ne "FanProcessor" (by decide)
        (anchorStep path (jp.getD []))
      rw [fanStep_eq]
      simp only [hf2, hf1]
      rw [skeinforge50Step_eq]
      simp only [hs]
      rw [anchorStep_eq]
      simp [List.append_assoc]
    · intro h
      exact nodup_fanStep _ _ (nodup_skeinforge50Step _ (nodup_anchorStep _ _ h))

/-- Witness for C8: the exact form applied at a concrete input — with
Skeinforge, no slicer path and the Replicator2 profile, the input `["X"]`
becomes `AnchorProcessor` at the head, then `X`, then the two appended
processors, with no duplicates; with Miracle-Grue the input list comes back
unchanged. -/
theorem getgcodeprocessors_characterization_witness :
    getgcodeprocessors (some ["X"]) Slicer.skeinforge none "Replicator2"
      = ["AnchorProcessor", "X", "Skeinforge50Processor", "FanProcessor"] ∧
    (getgcodeprocessors (some ["X"]) Slicer.skeinforge none "Replicator2").Nodup ∧
    getgcodeprocessors (some ["X"]) Slicer.miraclegrue none "Replicator2" = ["X"] := by
  have h := getgcodeprocessors_characterization (some ["X"]) Slicer.skeinforge none
    "Replicator2"
  have h2 := getgcodeprocessors_characterization (some ["X"]) Slicer.miraclegrue none
    "Replicator2"
  refine ⟨?_, h.2 (by decide), ?_⟩
  · rw [h.1]
    rfl
  · rw [h2.1]
    rfl

/-! ## Process cleanup -/

/-- C3 counterexample: the cleanup handler of `_StlRecipe.print` is attached
to `endevent` only, so on a fail or cancel transition — where `endevent`
does not fire — cleanup does not run; and `os.unlink` of a path that was
never created raises instead of being tolerated. -/
theorem cleanup_misses_fail_and_cancel :
    cleanupRunsOn (stlPrintPlan "a.gcode" "b.gcode") TerminalKind.failTransition
      = false ∧
    cleanupRunsOn (stlPrintPlan "a.gcode" "b.gcode") TerminalKind.cancelTransition
      = false ∧
    cleanupRunsOn (dualPrinttofilePlan "g0.gcode" "g1.gcode" "p.gcode")
      TerminalKind.failTransition = false ∧
    osUnlink [] "never-created.gcode" = .error "never-created.gcode" :=
  ⟨rfl, rfl, rfl, rfl⟩

/-- C3 amended: for the cited recipe pipelines the cleanup handler is
attached only to the `end` event, so it runs on the successful terminal
transition and on no other; and the cleanup deletes with bare `os.unlink`,
which removes an existing path but raises on a path that was never
created. -/
theorem cleanup_only_on_end (gcodepath processed g0 g1 p q : String)
    (fs : List String) :
    cleanupRunsOn (stlPrintPlan gcodepath processed) TerminalKind.endTransition
      = true ∧
    cleanupRunsOn (stlPrintPlan gcodepath processed) TerminalKind.failTransition
      = false ∧
    cleanupRunsOn (stlPrintPlan gcodepath processed) TerminalKind.cancelTransition
      = false ∧
    cleanupRunsOn (dualPrinttofilePlan g0 g1 p) TerminalKind.endTransition = true ∧
    cleanupRunsOn (dualPrinttofilePlan g0 g1 p) TerminalKind.failTransition = false ∧
    cleanupRunsOn (dualPrinttofilePlan g0 g1 p) TerminalKind.cancelTransition
      = false ∧
    osUnlink (q :: fs) q = .ok fs ∧
    osUnlink [] q = .error q := by
  refine ⟨rfl, rfl, rfl, rfl, rfl, rfl, ?_, rfl⟩
  simp [osUnlink]

/-! ## Verify task heartbeats -/

theorem lazyHeartbeat_self (r : ProgressRec) : lazyHeartbeat r r = [] := by
  simp [lazyHeartbeat]

/-- The verify task's `update` closure never fires a heartbeat: the old and
new records it hands to `lazy_heartbeat` are the same mutated dict. -/
theorem verifyHeartbeats_eq_nil (percents : List Nat) :
    verifyHeartbeats percents = [] := by
  have key : ∀ (ps : List Nat) (st : ProgressRec) (acc : List ProgressRec),
      (ps.foldl
        (fun acc percent =>
          let s := verifyUpdate acc.1 percent
          (s.1, acc.2 ++ s.2))
        (st, acc)).2 = acc := by
    intro ps
    induction ps with
    | nil =>
      intro st acc
      rfl
    | cons p ps ih =>
      intro st acc
      rw [List.foldl_cons]
      show (ps.foldl _ ((verifyUpdate st p).1, acc ++ (verifyUpdate st p).2)).2 = acc
      rw [show (verifyUpdate st p).2 = [] from lazyHeartbeat_self _, List.append_nil]
      exact ih _ acc
  exact key percents _ []

/-- C5: the verify task evaluated on concrete reader behaviors.  Successful
parsing ends the task with `True` and a parser `S3gStreamError` fails it
with the reader's message — but no heartbeat is ever forwarded (here: a
reader reporting 50% then 100% fires none), because the aliased progress
records always compare equal; in particular no final heartbeat reports
progress = 100. -/
theorem verifys3gtask_eval :
    (verifys3gtask (.success [50, 100])).heartbeats = [] ∧
    (verifys3gtask (.success [50, 100])).result = .ended true ∧
    (verifys3gtask (.streamError [10] "bad stream")).result
      = .failed "bad stream" ∧
    ∀ outcome : ReadOutcome, (verifys3gtask outcome).heartbeats = [] := by
  refine ⟨rfl, rfl, rfl, ?_⟩
  intro outcome
  cases outcome with
  | success ps => exact verifyHeartbeats_eq_nil ps
  | streamError ps msg => exact verifyHeartbeats_eq_nil ps

/-! ## Task-boundary exception handling -/

/-- C6 counterexample: the slicer's task body converts the exception to
`task.fail` but then re-raises it, so the exception does propagate to the
code that invoked the body, contrary to the claim. -/
theorem slice_body_reraises :
    (miraclegrueSliceBody (.error "boom")).propagated = some "boom" ∧
    (miraclegrueSliceBody (.error "boom")).propagated ≠ none ∧
    (miraclegrueSliceBody (.error "boom")).outcome = .failed "boom" :=
  ⟨rfl, by decide, rfl⟩

/-- C6 amended: in both task bodies every exception is caught and converted
to `task.fail(cause)`; the g-code processor body swallows it, while the
slicer body re-raises the same exception to its invoker after failing the
task; on success both bodies end the task. -/
theorem task_boundary_exception_handling (e : String) :
    gcodeprocessortaskBody (.error e)
      = { outcome := .failed e, propagated := none } ∧
    gcodeprocessortaskBody (.ok ()) = { outcome := .ended, propagated := none } ∧
    miraclegrueSliceBody (.error e)
      = { outcome := .failed e, propagated := some e } ∧
    miraclegrueSliceBody (.ok ()) = { outcome := .ended, propagated := none } :=
  ⟨rfl, rfl, rfl, rfl⟩

end Conveyor
